import Mathlib

/-!
Shallow embedding of the asteroid risk service (Tojan-Naiem/hack).

The embedding translates the Python source of `src/app/` into Lean:

* `PyRandom`   — a state model of Python's global `random` generator
                 (`random.seed(n)`, `random.seed()`, `randint`, `uniform`).
                 The Mersenne-Twister word stream is modelled by a concrete
                 deterministic mixing function `mtWord`; the only properties of
                 the real stream that any theorem uses are (a) the stream is a
                 pure function of the seed and the draw index, and (b) each
                 derived draw lies in its documented range.
* `AsteroidTypeClassifier` — `src/app/AsteroidTypeClassifier.py`
                 (an identical copy of `classify_by_id` appears in
                 `src/app/main.py`, lines 170-191).
* `LocationAnalyzer` — `src/app/location_analyzer.py`.
* `AsteroidPhysics`  — `src/app/physics.py`.
* `Main`       — module-level functions of `src/app/main.py`.

Python floats are idealised as exact arithmetic: rationals (`ℚ`) where the
code only adds, multiplies, divides and compares, and reals (`ℝ`) where the
code uses `math` functions (π, fractional powers, trigonometry).
-/

namespace PyRandom

/-- State of Python's process-global `random` generator: either it was last
seeded from system entropy (`random.seed()` with no argument), or it was
seeded with a concrete integer and has since produced `draws` values.
Drawing from the entropy state is modelled as the fixed value 0 and leaves
the state unchanged; no theorem depends on draws made from that state. -/
inductive RandState where
  | entropy : RandState
  | seeded (seed : Int) (draws : Nat) : RandState
deriving DecidableEq, Repr

/-- Injection of Python integers into naturals, used to index the word
stream by a possibly negative seed. -/
def intCode (s : Int) : Nat :=
  if 0 ≤ s then (2 * s).toNat else (-(2 * s) - 1).toNat

/-- Deterministic model of the Mersenne-Twister word stream: word number
`index` of the generator seeded with `seed`.  The mixing constants are
arbitrary; theorems use only that the value is a function of `(seed, index)`
and is `< 2 ^ 53`. -/
def mtWord (seed : Int) (index : Nat) : Nat :=
  (intCode seed * 2654435761 + index * 1103515245 + 12345) % 2 ^ 53

/-- Draw one raw word from the generator, advancing the state. -/
def RandState.draw : RandState → Nat × RandState
  | .entropy => (0, .entropy)
  | .seeded s n => (mtWord s n, .seeded s (n + 1))

/-- Model of `random.seed(n)`: the global state becomes the deterministic
state seeded by `n`, whatever it was before. -/
def seedWith (n : Int) (_st : RandState) : RandState :=
  RandState.seeded n 0

/-- Model of `random.seed()` (no argument): the global state is
re-randomized from system entropy. -/
def seedEntropy (_st : RandState) : RandState :=
  RandState.entropy

/-- Model of `random.randint(a, b)`: a draw in `[a, b]` (for `a ≤ b`). -/
def randint (a b : Nat) (st : RandState) : Nat × RandState :=
  let (w, st') := st.draw
  (a + w % (b - a + 1), st')

/-- Model of `random.uniform(a, b)`: `a + (b - a) * random()` where
`random()` is a draw in `[0, 1)` with 53 bits of resolution. -/
def uniform (a b : ℚ) (st : RandState) : ℚ × RandState :=
  let (w, st') := st.draw
  (a + (b - a) * ((w : ℚ) / 2 ^ 53), st')

end PyRandom

namespace AsteroidTypeClassifier

open PyRandom

/-- The fixed 13-entry spectral-type weight table of `classify_by_id`
(`src/app/AsteroidTypeClassifier.py`, lines 154-158). -/
def type_distribution : List (String × Nat) :=
  [("S", 45), ("C", 30), ("M", 5), ("Q", 5),
   ("V", 3), ("B", 2), ("K", 2), ("D", 2),
   ("P", 2), ("R", 1), ("T", 1), ("A", 1), ("L", 1)]

/-- The cumulative-bucket loop of `classify_by_id` (lines 163-168): walk the
distribution accumulating weights and return the first type whose cumulative
weight reaches `rand_val`; `none` models falling through the loop. -/
def bucketLoop : List (String × Nat) → Nat → Nat → Option String
  | [], _, _ => none
  | (type_code, weight) :: rest, cumulative, rand_val =>
    if rand_val ≤ cumulative + weight then some type_code
    else bucketLoop rest (cumulative + weight) rand_val

/-- `AsteroidTypeClassifier.classify_by_id` (lines 150-171): seed the global
generator with the asteroid id, draw `randint(1, total)`, map it through the
cumulative-bucket loop, and call `random.seed()` before returning.  The
result is paired with the final global generator state. -/
def classify_by_id (asteroid_id : Int) (st : RandState) : String × RandState :=
  let st1 := seedWith asteroid_id st
  let total := (type_distribution.map Prod.snd).sum
  let r := randint 1 total st1
  match bucketLoop type_distribution 0 r.1 with
  | some type_code => (type_code, seedEntropy r.2)
  | none => ("UNKNOWN", seedEntropy r.2)

end AsteroidTypeClassifier

namespace LocationAnalyzer

open PyRandom

/-- `LocationAnalyzer.generate_impact_site`
(`src/app/location_analyzer.py`, lines 90-95): seed the global generator
with the asteroid id, then draw `uniform(-60, 60)` for latitude and
`uniform(-180, 180)` for longitude.  No reseed happens afterwards: the
final global state is returned alongside the coordinates. -/
def generate_impact_site (asteroid_id : Int) (st : RandState) :
    (ℚ × ℚ) × RandState :=
  let st1 := seedWith asteroid_id st
  let (lat, st2) := uniform (-60) 60 st1
  let (lng, st3) := uniform (-180) 180 st2
  ((lat, lng), st3)

end LocationAnalyzer

namespace AsteroidPhysics

open Real

/-- Record returned by `calculate_kinetic_energy`
(`src/app/physics.py`, lines 19-23). -/
structure KineticEnergy where
  energy_joules : ℝ
  energy_megatons_TNT : ℝ
  hiroshima_equivalent : ℝ

/-- `AsteroidPhysics.calculate_mass` (`src/app/physics.py`, lines 4-9):
sphere volume `(4/3)·π·r³` with `r = diameter/2`, times the density
(default 2600).  The function performs no input validation. -/
noncomputable def calculate_mass (diameter_m : ℝ) (density : ℝ := 2600) : ℝ :=
  let radius_m := diameter_m / 2
  let volume_m3 := (4 / 3) * π * radius_m ^ 3
  volume_m3 * density

/-- `AsteroidPhysics.calculate_kinetic_energy` (`src/app/physics.py`,
lines 11-23): `½·m·v²` with `v` converted to m/s, megatons via
`4.184e15`, Hiroshima equivalents via `0.015`.  No input validation. -/
noncomputable def calculate_kinetic_energy (mass_kg velocity_km_s : ℝ) :
    KineticEnergy :=
  let velocity_m_s := velocity_km_s * 1000
  let energy_joules := 0.5 * mass_kg * velocity_m_s ^ 2
  let energy_megatons := energy_joules / 4.184e15
  { energy_joules := energy_joules
    energy_megatons_TNT := energy_megatons
    hiroshima_equivalent := energy_megatons / 0.015 }

/-- Record returned by `calculate_impact_effects`
(`src/app/physics.py`, lines 32-37). -/
structure ImpactEffects where
  crater_diameter_km : ℝ
  destruction_radius_km : ℝ
  shock_wave_velocity_km_s : ℝ
  affected_area_km2 : ℝ

/-- `AsteroidPhysics.calculate_impact_effects` (`src/app/physics.py`,
lines 25-37): fixed power laws in the energy (megatons). -/
noncomputable def calculate_impact_effects (energy_megatons : ℝ) :
    ImpactEffects :=
  let crater_diameter_km := 0.0177 * energy_megatons ^ (0.3658 : ℝ)
  let destruction_radius_km := crater_diameter_km * 10
  let shock_wave_velocity_km_s := 0.4 * energy_megatons ^ (0.25 : ℝ)
  { crater_diameter_km := crater_diameter_km
    destruction_radius_km := destruction_radius_km
    shock_wave_velocity_km_s := shock_wave_velocity_km_s
    affected_area_km2 := π * destruction_radius_km ^ 2 }

/-- `AsteroidPhysics.classify_hazard` (`src/app/physics.py`, lines 39-53):
ordered threshold cascade over diameter (m), miss distance (km, converted
to AU by dividing by 149597870.7) and energy (megatons). -/
def classify_hazard (diameter_m distance_km energy_mt : ℚ) : String :=
  let distance_au := distance_km / 149597870.7
  if diameter_m ≥ 1000 ∧ distance_au < 0.05 then "EXTINCTION_LEVEL"
  else if diameter_m ≥ 300 ∧ distance_au < 0.1 ∧ energy_mt > 1000 then
    "CIVILIZATION_THREAT"
  else if diameter_m ≥ 140 ∧ distance_au < 0.05 then "REGIONAL_DEVASTATION"
  else if diameter_m ≥ 50 ∧ distance_au < 0.01 then "CITY_DESTROYER"
  else "LOW_RISK"

/-- Ordered rule list of the hazard cascade, written as the spec describes
it: `(condition, tier)` pairs in the fixed priority order, to be evaluated
top-down with the first matching rule winning. -/
def hazard_rules (diameter_m distance_au energy_mt : ℚ) : List (Bool × String) :=
  [(decide (diameter_m ≥ 1000) && decide (distance_au < 0.05), "EXTINCTION_LEVEL"),
   (decide (diameter_m ≥ 300) && decide (distance_au < 0.1) && decide (energy_mt > 1000),
     "CIVILIZATION_THREAT"),
   (decide (diameter_m ≥ 140) && decide (distance_au < 0.05), "REGIONAL_DEVASTATION"),
   (decide (diameter_m ≥ 50) && decide (distance_au < 0.01), "CITY_DESTROYER")]

/-- First-match evaluation of an ordered rule list, with a default tier
when no rule matches. -/
def firstMatch : List (Bool × String) → String → String
  | [], dflt => dflt
  | (b, r) :: rest, dflt => if b then r else firstMatch rest dflt

end AsteroidPhysics

namespace Main

/-- The fixed seven-entry coordinate table of the module-level
`generate_impact_site` in `src/app/main.py` (lines 996-1004). -/
def impact_sites : List (ℚ × ℚ) :=
  [(40.7128, -74.0060),
   (35.6762, 139.6503),
   (25.0, 55.0),
   (-33.8688, 151.2093),
   (0, 0),
   (-45.0, -170.0),
   (48.8566, 2.3522)]

/-- The module-level `generate_impact_site` of `src/app/main.py`
(lines 994-1005): index the fixed table by `asteroid_id % len(impact_sites)`
(Python `%` on a positive modulus is `Int.emod`, always in `[0, 7)`, so the
`getD` default is never used). -/
def generate_impact_site (asteroid_id : Int) : ℚ × ℚ :=
  impact_sites.getD (asteroid_id % (impact_sites.length : Int)).toNat (0, 0)

end Main

namespace AsteroidDefenseStrategies

/-- A defense strategy as returned by `_enhance_strategy`
(`src/app/main.py`, lines 830-857).  Only the catalogue key and the
asteroid-specific fields that the enrichment computes are modelled; the
static descriptive strings of `DEFENSE_METHODS` and the generated mission
name are carried by the key. -/
structure EnhancedStrategy where
  name : String
  success_probability : String
  priority_score : Nat
  international_cooperation_required : Bool
deriving DecidableEq, Repr

/-- The priority table of `_enhance_strategy` (lines 845-848):
`dict.get(threat_level, 1)`. -/
def priority_factors (threat_level : String) : Nat :=
  if threat_level = "LOW" then 1
  else if threat_level = "MEDIUM" then 2
  else if threat_level = "HIGH" then 3
  else if threat_level = "VERY_HIGH" then 4
  else if threat_level = "EXTREME" then 5
  else 1

/-- `AsteroidDefenseStrategies._enhance_strategy` (lines 830-857):
success-probability band from a diameter cascade, priority score from the
threat level, international cooperation iff diameter > 200. -/
def enhance_strategy (strategy_name : String) (diameter : ℚ)
    (threat_level : String) : EnhancedStrategy :=
  let success_prob :=
    if diameter < 100 then "80-95%"
    else if diameter < 500 then "60-80%"
    else "30-60%"
  { name := strategy_name
    success_probability := success_prob
    priority_score := priority_factors threat_level
    international_cooperation_required := decide (diameter > 200) }

/-- `AsteroidDefenseStrategies.estimate_time_until_impact` (lines 859-870):
four-bucket cascade over the miss distance in AU. -/
def estimate_time_until_impact (miss_distance_km : ℚ) : ℚ :=
  let distance_au := miss_distance_km / 149597870.7
  if distance_au ≤ 0.01 then 0.1
  else if distance_au ≤ 0.05 then 1
  else if distance_au ≤ 0.1 then 5
  else 10

/-- Descending order on priority score, the key of the final
`strategies.sort(key=..., reverse=True)` (line 826). -/
def priorityGE (a b : EnhancedStrategy) : Prop :=
  b.priority_score ≤ a.priority_score

instance : DecidableRel priorityGE := fun a b =>
  inferInstanceAs (Decidable (b.priority_score ≤ a.priority_score))

instance : IsTotal EnhancedStrategy priorityGE :=
  ⟨fun a b => (Nat.le_total b.priority_score a.priority_score).imp id id⟩

instance : IsTrans EnhancedStrategy priorityGE :=
  ⟨fun _ _ _ hab hbc => Nat.le_trans hbc hab⟩

/-- The eligibility-gated strategy collection of `get_defense_strategies`
(`src/app/main.py`, lines 790-824): the `strategies` list built by the four
conditional appends, in source order. -/
def candidate_strategies (diameter : ℚ) (spectral_type threat_level : String)
    (time_until_impact : ℚ) : List EnhancedStrategy :=
  (if diameter < 500 ∧ time_until_impact > 2 then
    [enhance_strategy "KINETIC_IMPACTOR" diameter threat_level] else [])
  ++ (if diameter < 1000 ∧ time_until_impact > 10 then
    [enhance_strategy "GRAVITY_TRACTOR" diameter threat_level] else [])
  ++ (if (threat_level = "HIGH" ∨ threat_level = "VERY_HIGH" ∨
        threat_level = "EXTREME") ∧ time_until_impact < 5 ∧ diameter > 200 then
    [enhance_strategy "NUCLEAR_DEFLECTION" diameter threat_level] else [])
  ++ (if (spectral_type = "S-type" ∨ spectral_type = "M-type") ∧ diameter < 200 then
    [enhance_strategy "LASER_ABLATION" diameter threat_level] else [])

/-- `AsteroidDefenseStrategies.get_defense_strategies` (lines 782-828):
conditionally collect the four catalogue strategies, enrich each, sort by
priority score descending (Python's stable sort, modelled by insertion
sort, which places earlier-inserted elements first among equal keys), and
keep the top 3.  The asteroid and impact-analysis dicts are modelled by the
fields the function reads: `diameter_avg`, `spectral_type`, `threat_level`
and `miss_distance_km`. -/
def get_defense_strategies (diameter : ℚ) (spectral_type threat_level : String)
    (miss_distance_km : ℚ) : List EnhancedStrategy :=
  let time_until_impact := estimate_time_until_impact miss_distance_km
  let strategies :=
    candidate_strategies diameter spectral_type threat_level time_until_impact
  (List.insertionSort priorityGE strategies).take 3

end AsteroidDefenseStrategies

namespace LocationAnalyzer

open Real

/-- `LocationAnalyzer.is_ocean_location` (`src/app/location_analyzer.py`,
lines 12-23): three fixed bounding boxes (Pacific, Atlantic, Indian),
union semantics. -/
noncomputable def is_ocean_location (lat lng : ℝ) : Bool :=
  if (-60 ≤ lat ∧ lat ≤ 60) ∧ (-180 ≤ lng ∧ lng ≤ -60) then true
  else if (-60 ≤ lat ∧ lat ≤ 60) ∧ (-60 ≤ lng ∧ lng ≤ 20) then true
  else if (-60 ≤ lat ∧ lat ≤ 30) ∧ (20 ≤ lng ∧ lng ≤ 120) then true
  else false

end LocationAnalyzer

namespace Main

open Real

/-- Model of `math.radians`: degrees to radians. -/
noncomputable def radians (x : ℝ) : ℝ := x * π / 180

/-- Model of `math.atan2(y, x)`, the standard piecewise definition in terms
of `arctan`. -/
noncomputable def atan2 (y x : ℝ) : ℝ :=
  if 0 < x then arctan (y / x)
  else if x < 0 ∧ 0 ≤ y then arctan (y / x) + π
  else if x < 0 then arctan (y / x) - π
  else if 0 < y then π / 2
  else if y < 0 then -(π / 2)
  else 0

/-- `calculate_distance` (`src/app/main.py`, lines 982-992): haversine
great-circle distance, Earth radius 6371 km. -/
noncomputable def calculate_distance (lat1 lng1 lat2 lng2 : ℝ) : ℝ :=
  let R : ℝ := 6371
  let lat1_rad := radians lat1
  let lat2_rad := radians lat2
  let delta_lat := radians (lat2 - lat1)
  let delta_lng := radians (lng2 - lng1)
  let a := sin (delta_lat / 2) ^ 2 +
    cos lat1_rad * cos lat2_rad * sin (delta_lng / 2) ^ 2
  let c := 2 * atan2 (sqrt a) (sqrt (1 - a))
  R * c

/-- The fixed 19-point coastal reference list of `calculate_distance_to_coast`
(`src/app/main.py`, lines 1572-1579). -/
def coastal_points : List (ℝ × ℝ) :=
  [(40.7, -74.0), (34.0, -118.2), (25.8, -80.2), (47.6, -122.3),
   (-34.6, -58.4), (-23.5, -46.6), (-33.4, -70.7),
   (51.5, -0.1), (43.3, -8.4), (41.9, 12.5),
   (33.6, -7.6), (-33.9, 18.4),
   (35.7, 139.7), (22.3, 114.2), (1.3, 103.8),
   (-33.9, 151.2), (-37.8, 144.9), (-41.3, 174.8), (-43.5, 172.6)]

/-- Minimum of a list of reals.  The Python code folds `min` starting from
`float('inf')`; over the fixed nonempty coastal list this equals the list
minimum, modelled here as a fold starting from the head. -/
def listMin : List ℝ → ℝ
  | [] => 0
  | x :: xs => xs.foldl min x

/-- Model of Python's `round(x, 1)`: one decimal digit.  Mathlib's `round`
rounds half away from the bottom where Python uses banker's rounding; the
two agree except exactly at midpoints, which no theorem touches. -/
noncomputable def roundTo1 (x : ℝ) : ℝ := (round (10 * x) : ℤ) / 10

/-- `calculate_distance_to_coast` (`src/app/main.py`, lines 1567-1588):
0 for a non-ocean point, otherwise the minimum haversine distance to the
fixed coastal points, rounded to one decimal. -/
noncomputable def calculate_distance_to_coast (lat lng : ℝ) : ℝ :=
  if LocationAnalyzer.is_ocean_location lat lng then
    roundTo1 (listMin (coastal_points.map fun p =>
      calculate_distance lat lng p.1 p.2))
  else 0.0

/-- Result record of `calculate_tsunami_risk` (`src/app/main.py`,
lines 1152-1198).  The land branch returns a dict without the
coast-distance and arrival-time keys, modelled as `none`; the free-text
`reason`/warning strings are not modelled. -/
structure TsunamiRisk where
  tsunami_expected : Bool
  risk_level : String
  coastal_warnings_needed : Bool
  evacuation_recommended : Bool
  distance_to_coast_km : Option ℝ
  estimated_arrival_time_minutes : Option ℤ

/-- `calculate_tsunami_risk` (`src/app/main.py`, lines 1152-1198): for a
non-ocean point, no tsunami; for an ocean point an energy-threshold cascade
(>100 EXTREME, >10 HIGH, >1 MEDIUM, else LOW).  Python's `int(d / 8)` is
modelled by `⌊d / 8⌋` (the distance is nonnegative). -/
noncomputable def calculate_tsunami_risk (lat lng energy : ℝ) : TsunamiRisk :=
  if LocationAnalyzer.is_ocean_location lat lng = false then
    { tsunami_expected := false
      risk_level := "NONE"
      coastal_warnings_needed := false
      evacuation_recommended := false
      distance_to_coast_km := none
      estimated_arrival_time_minutes := none }
  else
    let distance_to_coast := calculate_distance_to_coast lat lng
    let arrival : Option ℤ := some ⌊distance_to_coast / 8⌋
    if energy > 100 then
      { tsunami_expected := true, risk_level := "EXTREME"
        coastal_warnings_needed := true, evacuation_recommended := true
        distance_to_coast_km := some distance_to_coast
        estimated_arrival_time_minutes := arrival }
    else if energy > 10 then
      { tsunami_expected := true, risk_level := "HIGH"
        coastal_warnings_needed := true, evacuation_recommended := true
        distance_to_coast_km := some distance_to_coast
        estimated_arrival_time_minutes := arrival }
    else if energy > 1 then
      { tsunami_expected := true, risk_level := "MEDIUM"
        coastal_warnings_needed := true
        evacuation_recommended := decide (distance_to_coast < 500)
        distance_to_coast_km := some distance_to_coast
        estimated_arrival_time_minutes := arrival }
    else
      { tsunami_expected := true, risk_level := "LOW"
        coastal_warnings_needed := true, evacuation_recommended := false
        distance_to_coast_km := some distance_to_coast
        estimated_arrival_time_minutes := arrival }

/-- The tier names of `calculate_overall_risk_level_improved`
(`src/app/main.py`, line 2030). -/
def risk_levels : List String :=
  ["MINIMAL", "LOW", "MEDIUM", "HIGH", "VERY_HIGH", "EXTREME"]

/-- `calculate_overall_risk_level_improved` (`src/app/main.py`,
lines 2005-2031): 1-5 base score from distance-in-AU and energy
thresholds; if the point is ocean AND `energy > 1` AND the coast distance
is under 1000 km, the score is incremented (capped at 5); then mapped
through `risk_levels[min(base_risk, 5)]`. -/
noncomputable def calculate_overall_risk_level_improved
    (energy miss_distance_km lat lng : ℝ) : String :=
  let distance_au := miss_distance_km / 149597870.7
  let base_risk : Nat :=
    if distance_au ≤ 0.01 ∧ energy > 10 then 5
    else if distance_au ≤ 0.05 ∧ energy > 10 then 4
    else if energy > 100 then 3
    else if energy > 10 then 2
    else 1
  let adjusted_risk : Nat :=
    if LocationAnalyzer.is_ocean_location lat lng = true ∧ energy > 1 then
      if calculate_distance_to_coast lat lng < 1000 then
        min 5 (base_risk + 1)
      else base_risk
    else base_risk
  risk_levels.getD (min adjusted_risk 5) ""

/-- The aggregate risk level exactly as claim C6 words it (to be compared
with the source definition above): the base score is incremented whenever
the impact location is oceanic and the nearest coast is below 1000 km,
with no other side condition. -/
noncomputable def overall_risk_level_claimed
    (energy miss_distance_km lat lng : ℝ) : String :=
  let distance_au := miss_distance_km / 149597870.7
  let base_risk : Nat :=
    if distance_au ≤ 0.01 ∧ energy > 10 then 5
    else if distance_au ≤ 0.05 ∧ energy > 10 then 4
    else if energy > 100 then 3
    else if energy > 10 then 2
    else 1
  let adjusted_risk : Nat :=
    if LocationAnalyzer.is_ocean_location lat lng = true ∧
        calculate_distance_to_coast lat lng < 1000 then
      min 5 (base_risk + 1)
    else base_risk
  risk_levels.getD (min adjusted_risk 5) ""

/-- The aggregate risk level as the amended claim C6 words it: the base
score is incremented exactly when the impact location is oceanic, the
energy exceeds 1 megaton, and the nearest coast is below 1000 km. -/
noncomputable def overall_risk_level_amended
    (energy miss_distance_km lat lng : ℝ) : String :=
  let distance_au := miss_distance_km / 149597870.7
  let base_risk : Nat :=
    if distance_au ≤ 0.01 ∧ energy > 10 then 5
    else if distance_au ≤ 0.05 ∧ energy > 10 then 4
    else if energy > 100 then 3
    else if energy > 10 then 2
    else 1
  let adjusted_risk : Nat :=
    if LocationAnalyzer.is_ocean_location lat lng = true ∧ energy > 1 ∧
        calculate_distance_to_coast lat lng < 1000 then
      min 5 (base_risk + 1)
    else base_risk
  risk_levels.getD (min adjusted_risk 5) ""

end Main

namespace AsteroidTypeClassifier

/-- The cumulative-weight bucket map exactly as claim C3 describes it: a
draw `r` in `[1, 100]` is mapped through the cumulative sums of the weight
table `S:45, C:30, M:5, Q:5, V:3, B:2, K:2, D:2, P:2, R:1, T:1, A:1, L:1`
(cumulative thresholds 45, 75, 80, 85, 88, 90, 92, 94, 96, 97, 98, 99,
100). -/
def spec_bucket (r : Nat) : String :=
  if r ≤ 45 then "S"
  else if r ≤ 75 then "C"
  else if r ≤ 80 then "M"
  else if r ≤ 85 then "Q"
  else if r ≤ 88 then "V"
  else if r ≤ 90 then "B"
  else if r ≤ 92 then "K"
  else if r ≤ 94 then "D"
  else if r ≤ 96 then "P"
  else if r ≤ 97 then "R"
  else if r ≤ 98 then "T"
  else if r ≤ 99 then "A"
  else "L"

end AsteroidTypeClassifier

/-! ### Helper lemmas -/

theorem PyRandom.RandState.draw_lt (st : PyRandom.RandState) :
    st.draw.1 < 2 ^ 53 := by
  cases st with
  | entropy => simp [PyRandom.RandState.draw]
  | seeded s n => exact Nat.mod_lt _ (by norm_num)

theorem PyRandom.randint_mem (a b : Nat) (st : PyRandom.RandState)
    (hab : a ≤ b) :
    a ≤ (PyRandom.randint a b st).1 ∧ (PyRandom.randint a b st).1 ≤ b := by
  have hfst : (PyRandom.randint a b st).1 = a + st.draw.1 % (b - a + 1) := by
    simp [PyRandom.randint]
  have h : st.draw.1 % (b - a + 1) < b - a + 1 := Nat.mod_lt _ (by omega)
  omega

theorem PyRandom.uniform_mem (a b : ℚ) (st : PyRandom.RandState)
    (hab : a ≤ b) :
    a ≤ (PyRandom.uniform a b st).1 ∧ (PyRandom.uniform a b st).1 ≤ b := by
  have hfst : (PyRandom.uniform a b st).1
      = a + (b - a) * ((st.draw.1 : ℚ) / 2 ^ 53) := by
    simp [PyRandom.uniform]
  have h0 : (0 : ℚ) ≤ (st.draw.1 : ℚ) / 2 ^ 53 := by positivity
  have h1 : ((st.draw.1 : ℚ) / 2 ^ 53) ≤ 1 := by
    rw [div_le_one (by positivity)]
    exact_mod_cast (st.draw_lt).le
  constructor
  · rw [hfst]; nlinarith
  · rw [hfst]; nlinarith

theorem AsteroidTypeClassifier.bucketLoop_eq_spec (r : Nat)
    (h1 : 1 ≤ r) (h2 : r ≤ 100) :
    AsteroidTypeClassifier.bucketLoop AsteroidTypeClassifier.type_distribution 0 r
      = some (AsteroidTypeClassifier.spec_bucket r) := by
  interval_cases r <;> rfl

theorem Main.atan2_nonneg (y x : ℝ) (hy : 0 ≤ y) : 0 ≤ Main.atan2 y x := by
  unfold Main.atan2
  split_ifs with h1 h2 h3 h4 h5
  · have hmono := Real.arctan_strictMono.monotone (div_nonneg hy h1.le)
    rwa [Real.arctan_zero] at hmono
  · have ha := Real.neg_pi_div_two_lt_arctan (y / x)
    have hp := Real.pi_pos
    linarith
  · exact absurd ⟨h3, hy⟩ h2
  · positivity
  · linarith
  · exact le_refl 0

theorem Main.haversine_arc_nonneg (a : ℝ) :
    0 ≤ (6371 : ℝ) * (2 * Main.atan2 (Real.sqrt a) (Real.sqrt (1 - a))) := by
  have h := Main.atan2_nonneg (Real.sqrt a) (Real.sqrt (1 - a)) (Real.sqrt_nonneg a)
  linarith

theorem Main.calculate_distance_nonneg (lat1 lng1 lat2 lng2 : ℝ) :
    0 ≤ Main.calculate_distance lat1 lng1 lat2 lng2 :=
  Main.haversine_arc_nonneg _

theorem Main.calculate_distance_self (lat lng : ℝ) :
    Main.calculate_distance lat lng lat lng = 0 := by
  unfold Main.calculate_distance Main.radians Main.atan2
  norm_num [Real.sqrt_one, Real.arctan_zero]

theorem Main.foldl_min_eq_self (x : ℝ) (xs : List ℝ) (h : ∀ y ∈ xs, x ≤ y) :
    xs.foldl min x = x := by
  induction xs with
  | nil => rfl
  | cons y ys ih =>
    simp only [List.foldl_cons]
    rw [min_eq_left (h y (by simp))]
    exact ih fun z hz => h z (by simp [hz])

theorem Main.distance_to_coast_nyc :
    Main.calculate_distance_to_coast 40.7 (-74.0) = 0 := by
  have hocean : LocationAnalyzer.is_ocean_location 40.7 (-74.0) = true := by
    norm_num [LocationAnalyzer.is_ocean_location]
  unfold Main.calculate_distance_to_coast
  rw [hocean]
  simp only [Main.coastal_points, List.map_cons, List.map_nil, Main.listMin,
    if_true]
  rw [Main.calculate_distance_self]
  have hnn : ∀ y ∈ [Main.calculate_distance 40.7 (-74.0) 34.0 (-118.2),
      Main.calculate_distance 40.7 (-74.0) 25.8 (-80.2),
      Main.calculate_distance 40.7 (-74.0) 47.6 (-122.3),
      Main.calculate_distance 40.7 (-74.0) (-34.6) (-58.4),
      Main.calculate_distance 40.7 (-74.0) (-23.5) (-46.6),
      Main.calculate_distance 40.7 (-74.0) (-33.4) (-70.7),
      Main.calculate_distance 40.7 (-74.0) 51.5 (-0.1),
      Main.calculate_distance 40.7 (-74.0) 43.3 (-8.4),
      Main.calculate_distance 40.7 (-74.0) 41.9 12.5,
      Main.calculate_distance 40.7 (-74.0) 33.6 (-7.6),
      Main.calculate_distance 40.7 (-74.0) (-33.9) 18.4,
      Main.calculate_distance 40.7 (-74.0) 35.7 139.7,
      Main.calculate_distance 40.7 (-74.0) 22.3 114.2,
      Main.calculate_distance 40.7 (-74.0) 1.3 103.8,
      Main.calculate_distance 40.7 (-74.0) (-33.9) 151.2,
      Main.calculate_distance 40.7 (-74.0) (-37.8) 144.9,
      Main.calculate_distance 40.7 (-74.0) (-41.3) 174.8,
      Main.calculate_distance 40.7 (-74.0) (-43.5) 172.6], (0 : ℝ) ≤ y := by
    intro y hy
    simp only [List.mem_cons, List.not_mem_nil, or_false] at hy
    rcases hy with rfl | rfl | rfl | rfl | rfl | rfl | rfl | rfl | rfl | rfl |
      rfl | rfl | rfl | rfl | rfl | rfl | rfl | rfl <;>
      exact Main.calculate_distance_nonneg _ _ _ _
  rw [Main.foldl_min_eq_self 0 _ hnn]
  norm_num [Main.roundTo1]

theorem Main.ite_nested_and {α : Type} (P Q R : Prop)
    [Decidable P] [Decidable Q] [Decidable R] (x y : α) :
    (if P ∧ Q then (if R then x else y) else y) = if P ∧ Q ∧ R then x else y := by
  by_cases hP : P <;> by_cases hQ : Q <;> by_cases hR : R <;> simp [hP, hQ, hR]

theorem AsteroidTypeClassifier.classify_fst (asteroid_id : Int)
    (st : PyRandom.RandState) :
    (AsteroidTypeClassifier.classify_by_id asteroid_id st).1
      = AsteroidTypeClassifier.spec_bucket
          (PyRandom.randint 1 100 (PyRandom.RandState.seeded asteroid_id 0)).1 := by
  have hr := PyRandom.randint_mem 1 100
    (PyRandom.RandState.seeded asteroid_id 0) (by norm_num)
  have hb := AsteroidTypeClassifier.bucketLoop_eq_spec _ hr.1 hr.2
  unfold AsteroidTypeClassifier.classify_by_id
  dsimp only
  rw [show PyRandom.seedWith asteroid_id st
        = PyRandom.RandState.seeded asteroid_id 0 from rfl,
      show (List.map Prod.snd AsteroidTypeClassifier.type_distribution).sum = 100
        from rfl, hb]

/-! ### Claim theorems -/

/-- C1: The claim states that `calculate_mass` rejects every non-positive
diameter and `calculate_kinetic_energy` rejects every non-positive velocity
with an `InvalidInput` error.  The code performs no validation at all: at
diameter `-2` the mass function silently returns the numeric value
`-10400·π/3`, at velocity `0` the energy function returns `0`, and at
velocity `-1` it returns the positive energy `500000` joules. -/
theorem c1_counterexample :
    AsteroidPhysics.calculate_mass (-2) 2600 = -(10400 * Real.pi) / 3
    ∧ (AsteroidPhysics.calculate_kinetic_energy 1 0).energy_joules = 0
    ∧ (AsteroidPhysics.calculate_kinetic_energy 1 (-1)).energy_joules = 500000 := by
  refine ⟨?_, ?_, ?_⟩ <;>
    norm_num [AsteroidPhysics.calculate_mass,
      AsteroidPhysics.calculate_kinetic_energy] <;> ring

/-- C1 (amended): Neither physics function validates its input.  Both are
total: for every diameter (positive or not) `calculate_mass` returns the
numeric value `π·d³·ρ/6`, and for every velocity (positive or not)
`calculate_kinetic_energy` returns `joules = 500000·m·v²` (that is,
`½·m·(1000·v)²`), `megatons = joules / 4.184e15` and
`hiroshima = megatons / 0.015`; a negative velocity yields exactly the
energy of the corresponding positive velocity instead of an error.  For
positive diameter and velocity this is the documented numeric result. -/
theorem c1_amended (diameter_m density mass_kg velocity_km_s : ℝ) :
    AsteroidPhysics.calculate_mass diameter_m density
      = Real.pi * diameter_m ^ 3 * density / 6
    ∧ (AsteroidPhysics.calculate_kinetic_energy mass_kg velocity_km_s).energy_joules
      = 500000 * mass_kg * velocity_km_s ^ 2
    ∧ (AsteroidPhysics.calculate_kinetic_energy mass_kg velocity_km_s).energy_megatons_TNT
      = 500000 * mass_kg * velocity_km_s ^ 2 / 4.184e15
    ∧ (AsteroidPhysics.calculate_kinetic_energy mass_kg velocity_km_s).hiroshima_equivalent
      = 500000 * mass_kg * velocity_km_s ^ 2 / 4.184e15 / 0.015
    ∧ (AsteroidPhysics.calculate_kinetic_energy mass_kg (-velocity_km_s)).energy_joules
      = (AsteroidPhysics.calculate_kinetic_energy mass_kg velocity_km_s).energy_joules := by
  refine ⟨?_, ?_, ?_, ?_, ?_⟩ <;>
    simp only [AsteroidPhysics.calculate_mass,
      AsteroidPhysics.calculate_kinetic_energy] <;>
    norm_num <;> ring

/-- C2: The claim states that both id-seeded generators re-randomize the
shared generator state before returning.  `classify_by_id` does, but
`generate_impact_site` does not: after calling it with id 0 the shared
state is still the deterministic state seeded from 0 (two draws in), not
an entropy-randomized state. -/
theorem c2_counterexample :
    (LocationAnalyzer.generate_impact_site 0 PyRandom.RandState.entropy).2
      = PyRandom.RandState.seeded 0 2
    ∧ (LocationAnalyzer.generate_impact_site 0 PyRandom.RandState.entropy).2
      ≠ PyRandom.RandState.entropy := by
  have h : (LocationAnalyzer.generate_impact_site 0 PyRandom.RandState.entropy).2
      = PyRandom.RandState.seeded 0 2 := by
    simp only [LocationAnalyzer.generate_impact_site, PyRandom.uniform,
      PyRandom.seedWith, PyRandom.RandState.draw]
  refine ⟨h, ?_⟩
  rw [h]
  simp

/-- C2 (amended): `classify_by_id` re-randomizes the shared generator
state (`random.seed()`) before returning, for every id and every prior
state; `generate_impact_site` does not — after it returns, the shared
state is still the state deterministically seeded from the id, two draws
in, observable by any later computation. -/
theorem c2_amended (asteroid_id : Int) (st : PyRandom.RandState) :
    (AsteroidTypeClassifier.classify_by_id asteroid_id st).2
      = PyRandom.RandState.entropy
    ∧ (LocationAnalyzer.generate_impact_site asteroid_id st).2
      = PyRandom.RandState.seeded asteroid_id 2 := by
  constructor
  · unfold AsteroidTypeClassifier.classify_by_id
    dsimp only
    split <;> rfl
  · simp only [LocationAnalyzer.generate_impact_site, PyRandom.uniform,
      PyRandom.seedWith, PyRandom.RandState.draw]

/-- C3: `classify_by_id` is a pure function of the asteroid id — its result
is independent of the prior shared generator state, so interleaved calls
for other ids cannot change it; the weight table sums to 100, the one
draw `randint(1, 100)` lies in `[1, 100]`, and the returned code is the
cumulative-weight bucket of that draw. -/
theorem c3_classify_deterministic (asteroid_id : Int)
    (st st' : PyRandom.RandState) :
    (AsteroidTypeClassifier.classify_by_id asteroid_id st).1
      = (AsteroidTypeClassifier.classify_by_id asteroid_id st').1
    ∧ (AsteroidTypeClassifier.type_distribution.map Prod.snd).sum = 100
    ∧ 1 ≤ (PyRandom.randint 1 100 (PyRandom.RandState.seeded asteroid_id 0)).1
    ∧ (PyRandom.randint 1 100 (PyRandom.RandState.seeded asteroid_id 0)).1 ≤ 100
    ∧ (AsteroidTypeClassifier.classify_by_id asteroid_id st).1
      = AsteroidTypeClassifier.spec_bucket
          (PyRandom.randint 1 100 (PyRandom.RandState.seeded asteroid_id 0)).1 := by
  have hr := PyRandom.randint_mem 1 100
    (PyRandom.RandState.seeded asteroid_id 0) (by norm_num)
  exact ⟨(AsteroidTypeClassifier.classify_fst asteroid_id st).trans
      (AsteroidTypeClassifier.classify_fst asteroid_id st').symm,
    rfl, hr.1, hr.2, AsteroidTypeClassifier.classify_fst asteroid_id st⟩

/-- C4: `classify_hazard` is the first-match evaluation of the fixed
ordered rule list (EXTINCTION_LEVEL, CIVILIZATION_THREAT,
REGIONAL_DEVASTATION, CITY_DESTROYER, default LOW_RISK), and on the
scenario `(diameter 1500 m, distance 1,000,000 km, energy 50,000 Mt)` the
first rule matches, giving EXTINCTION_LEVEL. -/
theorem c4_classify_hazard (diameter_m distance_km energy_mt : ℚ) :
    AsteroidPhysics.classify_hazard diameter_m distance_km energy_mt
      = AsteroidPhysics.firstMatch
          (AsteroidPhysics.hazard_rules diameter_m
            (distance_km / 149597870.7) energy_mt) "LOW_RISK"
    ∧ AsteroidPhysics.classify_hazard 1500 1000000 50000
      = "EXTINCTION_LEVEL" := by
  constructor
  · simp only [AsteroidPhysics.classify_hazard, AsteroidPhysics.hazard_rules,
      AsteroidPhysics.firstMatch, Bool.and_eq_true, decide_eq_true_eq, and_assoc]
  · norm_num [AsteroidPhysics.classify_hazard]

/-- C5: For every point classified as land by the three-box ocean test,
`calculate_tsunami_risk` reports `tsunami_expected = false` whatever the
energy; for every ocean point with energy above 100 megatons it reports
risk tier EXTREME. -/
theorem c5_tsunami (lat lng energy : ℝ) :
    (LocationAnalyzer.is_ocean_location lat lng = false →
      (Main.calculate_tsunami_risk lat lng energy).tsunami_expected = false)
    ∧ (LocationAnalyzer.is_ocean_location lat lng = true → energy > 100 →
      (Main.calculate_tsunami_risk lat lng energy).risk_level = "EXTREME") := by
  constructor
  · intro h
    simp [Main.calculate_tsunami_risk, h]
  · intro h he
    simp [Main.calculate_tsunami_risk, h, he]

/-- C5 witness: the land point (70, 0) (outside all three ocean boxes)
never expects a tsunami, and the ocean point (0, -100) with energy 200
megatons is tier EXTREME. -/
theorem c5_witness :
    (Main.calculate_tsunami_risk 70 0 5).tsunami_expected = false
    ∧ (Main.calculate_tsunami_risk 0 (-100) 200).risk_level = "EXTREME" :=
  ⟨(c5_tsunami 70 0 5).1 (by norm_num [LocationAnalyzer.is_ocean_location]),
   (c5_tsunami 0 (-100) 200).2
     (by norm_num [LocationAnalyzer.is_ocean_location]) (by norm_num)⟩

/-- C7: For every energy `E ≥ 0`, `calculate_impact_effects` returns
`crater = 0.0177·E^0.3658`, `destruction = crater·10`,
`shockwave = 0.4·E^0.25` and `affected area = π·destruction²`; at `E = 0`
all four effects are exactly zero (and, the function being total, no error
is raised). -/
theorem c7_impact_effects (energy_megatons : ℝ) (h : 0 ≤ energy_megatons) :
    (AsteroidPhysics.calculate_impact_effects energy_megatons).crater_diameter_km
      = 0.0177 * energy_megatons ^ (0.3658 : ℝ)
    ∧ (AsteroidPhysics.calculate_impact_effects energy_megatons).destruction_radius_km
      = (AsteroidPhysics.calculate_impact_effects energy_megatons).crater_diameter_km * 10
    ∧ (AsteroidPhysics.calculate_impact_effects energy_megatons).shock_wave_velocity_km_s
      = 0.4 * energy_megatons ^ (0.25 : ℝ)
    ∧ (AsteroidPhysics.calculate_impact_effects energy_megatons).affected_area_km2
      = Real.pi *
        (AsteroidPhysics.calculate_impact_effects energy_megatons).destruction_radius_km ^ 2
    ∧ (AsteroidPhysics.calculate_impact_effects 0).crater_diameter_km = 0
    ∧ (AsteroidPhysics.calculate_impact_effects 0).destruction_radius_km = 0
    ∧ (AsteroidPhysics.calculate_impact_effects 0).shock_wave_velocity_km_s = 0
    ∧ (AsteroidPhysics.calculate_impact_effects 0).affected_area_km2 = 0 := by
  have h1 : (0 : ℝ) ^ (0.3658 : ℝ) = 0 := Real.zero_rpow (by norm_num)
  have h2 : (0 : ℝ) ^ (0.25 : ℝ) = 0 := Real.zero_rpow (by norm_num)
  refine ⟨rfl, rfl, rfl, rfl, ?_, ?_, ?_, ?_⟩ <;>
    simp [AsteroidPhysics.calculate_impact_effects, h1, h2]

/-- C7 witness: at energy 1 the crater diameter is exactly the
coefficient 0.0177, and at energy 0 the affected area is zero. -/
theorem c7_witness :
    (AsteroidPhysics.calculate_impact_effects 1).crater_diameter_km = 0.0177
    ∧ (AsteroidPhysics.calculate_impact_effects 0).affected_area_km2 = 0 := by
  have h := c7_impact_effects 1 (by norm_num)
  refine ⟨?_, h.2.2.2.2.2.2.2⟩
  rw [h.1, Real.one_rpow]
  norm_num

/-- C6: The claim states the aggregate risk score is incremented whenever
the impact point is oceanic and the coast is within 1000 km, with no other
side condition; the code also requires `energy > 1`.  At energy 0.5,
miss distance 1495978707 km (10 AU) and the oceanic point (40.7, -74.0)
(0 km from the first coastal reference point), the claimed rule yields
MEDIUM but the code yields LOW. -/
theorem c6_counterexample :
    Main.calculate_overall_risk_level_improved 0.5 1495978707 40.7 (-74.0)
      = "LOW"
    ∧ Main.overall_risk_level_claimed 0.5 1495978707 40.7 (-74.0)
      = "MEDIUM" := by
  have hocean : LocationAnalyzer.is_ocean_location 40.7 (-74.0) = true := by
    norm_num [LocationAnalyzer.is_ocean_location]
  constructor
  · norm_num [Main.calculate_overall_risk_level_improved, Main.risk_levels]
  · unfold Main.overall_risk_level_claimed
    dsimp only
    rw [Main.distance_to_coast_nyc, hocean]
    norm_num [Main.risk_levels]

/-- C6 (amended): the aggregate risk level is the 1-5 base score from the
distance-in-AU and energy thresholds, incremented by one (capped at 5)
exactly when the impact location is oceanic, the energy exceeds 1 megaton,
and the nearest coast is below 1000 km, then mapped into
`[MINIMAL, LOW, MEDIUM, HIGH, VERY_HIGH, EXTREME]`. -/
theorem c6_amended (energy miss_distance_km lat lng : ℝ) :
    Main.calculate_overall_risk_level_improved energy miss_distance_km lat lng
      = Main.overall_risk_level_amended energy miss_distance_km lat lng := by
  unfold Main.calculate_overall_risk_level_improved
    Main.overall_risk_level_amended
  dsimp only
  rw [Main.ite_nested_and]

theorem AsteroidDefenseStrategies.mem_candidate_priority
    (diameter : ℚ) (spectral_type threat_level : String)
    (time_until_impact : ℚ) (s : AsteroidDefenseStrategies.EnhancedStrategy)
    (hs : s ∈ AsteroidDefenseStrategies.candidate_strategies diameter
      spectral_type threat_level time_until_impact) :
    s.priority_score
      = AsteroidDefenseStrategies.priority_factors threat_level := by
  simp only [AsteroidDefenseStrategies.candidate_strategies,
    List.mem_append] at hs
  rcases hs with ((h | h) | h) | h <;>
  · split at h
    · simp only [List.mem_singleton] at h
      subst h
      rfl
    · simp at h

/-- C8: `get_defense_strategies` always returns at most 3 strategies,
sorted by priority score descending, every one carrying the priority score
mapped from the threat level (LOW 1 … EXTREME 5); and on the scenario
(diameter 50, threat LOW, miss distance 1,000,000 km so that the estimated
lead time is 0.1 years) the result is exactly the laser-ablation entry —
neither strategy whose eligibility rule requires a lead time above 2 years
(kinetic impactor, gravity tractor) appears. -/
theorem c8_defense_strategies (diameter : ℚ)
    (spectral_type threat_level : String) (miss_distance_km : ℚ) :
    (AsteroidDefenseStrategies.get_defense_strategies diameter spectral_type
        threat_level miss_distance_km).length ≤ 3
    ∧ List.Sorted AsteroidDefenseStrategies.priorityGE
        (AsteroidDefenseStrategies.get_defense_strategies diameter
          spectral_type threat_level miss_distance_km)
    ∧ ((AsteroidDefenseStrategies.get_defense_strategies diameter
          spectral_type threat_level miss_distance_km).all fun s =>
          s.priority_score
            == AsteroidDefenseStrategies.priority_factors threat_level) = true
    ∧ AsteroidDefenseStrategies.estimate_time_until_impact 1000000 = 0.1
    ∧ AsteroidDefenseStrategies.get_defense_strategies 50 "S-type" "LOW"
        1000000
      = [AsteroidDefenseStrategies.enhance_strategy "LASER_ABLATION" 50 "LOW"]
    ∧ ((AsteroidDefenseStrategies.get_defense_strategies 50 "S-type" "LOW"
          1000000).all fun s =>
          s.name != "KINETIC_IMPACTOR" && s.name != "GRAVITY_TRACTOR")
      = true := by
  have hmem : ∀ s ∈ AsteroidDefenseStrategies.get_defense_strategies diameter
      spectral_type threat_level miss_distance_km,
      s.priority_score
        = AsteroidDefenseStrategies.priority_factors threat_level := by
    intro s hs
    unfold AsteroidDefenseStrategies.get_defense_strategies at hs
    dsimp only at hs
    exact AsteroidDefenseStrategies.mem_candidate_priority _ _ _ _ s
      ((List.perm_insertionSort _ _).mem_iff.mp (List.mem_of_mem_take hs))
  have hscen : AsteroidDefenseStrategies.get_defense_strategies 50 "S-type"
      "LOW" 1000000
      = [AsteroidDefenseStrategies.enhance_strategy "LASER_ABLATION" 50
          "LOW"] := by
    unfold AsteroidDefenseStrategies.get_defense_strategies
    have ht : AsteroidDefenseStrategies.estimate_time_until_impact 1000000
        = 0.1 := by
      norm_num [AsteroidDefenseStrategies.estimate_time_until_impact]
    dsimp only
    rw [ht]
    norm_num [AsteroidDefenseStrategies.candidate_strategies,
      List.insertionSort, List.orderedInsert]
  refine ⟨?_, ?_, ?_, ?_, hscen, ?_⟩
  · unfold AsteroidDefenseStrategies.get_defense_strategies
    dsimp only
    exact List.length_take_le 3 _
  · unfold AsteroidDefenseStrategies.get_defense_strategies
    dsimp only
    apply List.Pairwise.sublist (List.take_sublist 3 _)
    apply List.pairwise_of_forall_mem_list
    intro a ha b hb
    have hpa := AsteroidDefenseStrategies.mem_candidate_priority _ _ _ _ a
      ((List.perm_insertionSort _ _).mem_iff.mp ha)
    have hpb := AsteroidDefenseStrategies.mem_candidate_priority _ _ _ _ b
      ((List.perm_insertionSort _ _).mem_iff.mp hb)
    show b.priority_score ≤ a.priority_score
    rw [hpa, hpb]
  · rw [List.all_eq_true]
    intro s hs
    simpa using hmem s hs
  · norm_num [AsteroidDefenseStrategies.estimate_time_until_impact]
  · rw [hscen]
    simp [AsteroidDefenseStrategies.enhance_strategy]

/-- C9: the seeded `generate_impact_site` is a pure function of the
asteroid id — the prior shared generator state cannot change the returned
pair — and for every id the latitude lies in [-60, 60] and the longitude
in [-180, 180]. -/
theorem c9_impact_site (asteroid_id : Int) (st st' : PyRandom.RandState) :
    (LocationAnalyzer.generate_impact_site asteroid_id st).1
      = (LocationAnalyzer.generate_impact_site asteroid_id st').1
    ∧ -60 ≤ (LocationAnalyzer.generate_impact_site asteroid_id st).1.1
    ∧ (LocationAnalyzer.generate_impact_site asteroid_id st).1.1 ≤ 60
    ∧ -180 ≤ (LocationAnalyzer.generate_impact_site asteroid_id st).1.2
    ∧ (LocationAnalyzer.generate_impact_site asteroid_id st).1.2 ≤ 180 := by
  have hlat := PyRandom.uniform_mem (-60) 60
    (PyRandom.RandState.seeded asteroid_id 0) (by norm_num)
  have hlng := PyRandom.uniform_mem (-180) 180
    (PyRandom.RandState.seeded asteroid_id 1) (by norm_num)
  exact ⟨rfl, hlat.1, hlat.2, hlng.1, hlng.2⟩

/-- C10: the module-level `generate_impact_site` of `main.py` is the fixed
seven-entry table indexed by `asteroid_id % 7`: ids congruent mod 7 get
identical coordinates, every result is an entry of the table, and every
entry of the table is the result for some id. -/
theorem c10_impact_site_table :
    (∀ a b : Int, a % 7 = b % 7 →
      Main.generate_impact_site a = Main.generate_impact_site b)
    ∧ (∀ a : Int, Main.generate_impact_site a ∈ Main.impact_sites)
    ∧ (∀ p ∈ Main.impact_sites, ∃ a : Int,
        Main.generate_impact_site a = p) := by
  refine ⟨?_, ?_, ?_⟩
  · intro a b h
    unfold Main.generate_impact_site
    rw [show ((Main.impact_sites.length : Nat) : Int) = 7 from rfl, h]
  · intro a
    unfold Main.generate_impact_site
    rw [show ((Main.impact_sites.length : Nat) : Int) = 7 from rfl]
    have h0 : 0 ≤ a % 7 := Int.emod_nonneg a (by norm_num)
    have h7 : a % 7 < 7 := Int.emod_lt_of_pos a (by norm_num)
    have hn : (a % 7).toNat < 7 := by omega
    revert hn
    generalize (a % 7).toNat = n
    intro hn
    interval_cases n <;> simp [Main.impact_sites]
  · intro p hp
    simp only [Main.impact_sites, List.mem_cons, List.not_mem_nil,
      or_false] at hp
    rcases hp with rfl | rfl | rfl | rfl | rfl | rfl | rfl
    · refine ⟨0, ?_⟩
      rfl
    · refine ⟨1, ?_⟩
      rfl
    · refine ⟨2, ?_⟩
      rfl
    · refine ⟨3, ?_⟩
      rfl
    · refine ⟨4, ?_⟩
      rfl
    · refine ⟨5, ?_⟩
      rfl
    · refine ⟨6, ?_⟩
      rfl

/-- C10 witness: ids 3 and 10 are congruent mod 7 and get the same site;
the New York entry of the table is hit (by id 0). -/
theorem c10_witness :
    Main.generate_impact_site 3 = Main.generate_impact_site 10
    ∧ ∃ a : Int, Main.generate_impact_site a
        = ((40.7128 : ℚ), (-74.0060 : ℚ)) := by
  constructor
  · exact c10_impact_site_table.1 3 10 (by norm_num)
  · exact c10_impact_site_table.2.2 ((40.7128 : ℚ), (-74.0060 : ℚ))
      (by simp [Main.impact_sites])
